import Mathlib

/-!
Verification development for the Sistema Bravus restaurant-management core
(single source file crud.py).  The persistent state is embedded shallowly:
each table row becomes a structure, the database a record of row lists, and
each backend function a pure state transformer.  Monetary and quantity
arithmetic, carried out on IEEE doubles in the source, is idealised as exact
rational arithmetic; timestamps, stored as second-resolution local-time
strings and compared chronologically by the storage layer, are idealised as
seconds-since-epoch naturals.  The password digest (an external hashing
library in the source) is a parameter of the credential check.
-/

namespace Bravus

/-- Row of the insumos table: id, nome, categoria, unidade, estoque_qtd,
custo_medio.  Quantities and costs are rationals in the embedding. -/
structure Insumo where
  id : Nat
  nome : String
  categoria : String
  unidade : String
  estoque_qtd : ℚ
  custo_medio : ℚ
deriving Repr, DecidableEq

/-- Row of the compras table: id, nome (free text, not a foreign key),
quantidade, preco, with the timestamp omitted (no claim concerns it). -/
structure Compra where
  id : Nat
  nome : String
  quantidade : ℚ
  preco : ℚ
deriving Repr, DecidableEq

/-- Row of the vendas table.  The data column is the sale timestamp in
seconds. -/
structure Venda where
  receita_id : Nat
  quantidade : ℤ
  preco_unit : ℚ
  taxa_plataforma : ℚ
  total_bruto : ℚ
  custo_total : ℚ
  lucro_liquido : ℚ
  data : Nat
deriving Repr, DecidableEq

/-- Row of the usuarios table. -/
structure Usuario where
  username : String
  password_hash : String
deriving Repr, DecidableEq

/-- The persistent store: the four tables the claims touch, plus the
autoincrement counters for the two tables whose row identities matter. -/
structure DB where
  insumos : List Insumo
  compras : List Compra
  vendas : List Venda
  usuarios : List Usuario
  next_insumo_id : Nat
  next_compra_id : Nat
deriving Repr, DecidableEq

/-- SELECT id, estoque_qtd, custo_medio FROM insumos WHERE nome = ?
(fetchone: the first matching row). -/
def find_insumo (db : DB) (nome : String) : Option Insumo :=
  db.insumos.find? (fun i => i.nome == nome)

/-- registrar_compra_db (crud.py lines 169-205): insert the purchase row,
then either create the ingredient (stock = quantity, cost = unit price,
empty category, default unit) or update it by weighted average, guarding
the division with novo_estoque > 0. -/
def registrar_compra_db (db : DB) (nome : String) (quantidade preco_unit : ℚ) : DB :=
  let db1 : DB :=
    { db with
      compras := db.compras ++ [⟨db.next_compra_id, nome, quantidade, preco_unit⟩],
      next_compra_id := db.next_compra_id + 1 }
  match db1.insumos.find? (fun i => i.nome == nome) with
  | none =>
      { db1 with
        insumos := db1.insumos ++ [⟨db1.next_insumo_id, nome, "", "un", quantidade, preco_unit⟩],
        next_insumo_id := db1.next_insumo_id + 1 }
  | some row =>
      let est_ant := row.estoque_qtd
      let custo_ant := row.custo_medio
      let novo_estoque := est_ant + quantidade
      let novo_custo_medio :=
        if 0 < novo_estoque then
          (est_ant * custo_ant + quantidade * preco_unit) / novo_estoque
        else preco_unit
      { db1 with
        insumos := db1.insumos.map (fun i =>
          if i.id == row.id then
            { i with estoque_qtd := novo_estoque, custo_medio := novo_custo_medio }
          else i) }

/-- delete_compra_db (crud.py lines 215-221): DELETE FROM compras WHERE id=?,
touching no other table. -/
def delete_compra_db (db : DB) (compra_id : Nat) : DB :=
  { db with compras := db.compras.filter (fun c => !(c.id == compra_id)) }

/-- Outcome of a presentation-layer action: either the updated store or a
warning dialog with no state change. -/
inductive UIResult where
  | ok (db : DB)
  | aviso (msg : String)
deriving Repr, DecidableEq

/-- The validating caller of the ledger (method _registrar_compra, crud.py
lines 512-525), with the text-field parsing elided: empty name or
non-positive quantity or price is rejected with a warning before
registrar_compra_db is reached. -/
def registrar_compra_ui (db : DB) (nome : String) (quantidade preco : ℚ) : UIResult :=
  if nome = "" ∨ quantidade ≤ 0 ∨ preco ≤ 0 then
    .aviso "Preencha todos os campos corretamente."
  else
    .ok (registrar_compra_db db nome quantidade preco)

/-- registrar_venda (crud.py lines 270-285): derive gross total, zero cost
of goods and net profit, and append one sale row timestamped now. -/
def registrar_venda (db : DB) (receita_id : Nat) (quantidade : ℤ)
    (preco_unit taxa_plataforma : ℚ) (now : Nat) : DB :=
  let total_bruto : ℚ := preco_unit * (quantidade : ℚ)
  let custo_total : ℚ := 0
  let desp_plataforma : ℚ := total_bruto * taxa_plataforma
  let lucro_liquido : ℚ := total_bruto - desp_plataforma - custo_total
  { db with
    vendas := db.vendas ++
      [⟨receita_id, quantidade, preco_unit, taxa_plataforma,
        total_bruto, custo_total, lucro_liquido, now⟩] }

/-- The WHERE clause built by _agg_vendas: an optional lower bound compared
with >= and an optional exclusive upper bound compared with <. -/
def matchesWindow (dt_ini dt_fim : Option Nat) (data : Nat) : Bool :=
  (match dt_ini with
   | none => true
   | some t => decide (t ≤ data)) &&
  (match dt_fim with
   | none => true
   | some t => decide (data < t))

/-- _agg_vendas (crud.py lines 821-837): COUNT, SUM(quantidade),
SUM(total_bruto), SUM(lucro_liquido) over the sale rows inside the window,
with the empty result set collapsing to zeros. -/
def agg_vendas (vendas : List Venda) (dt_ini dt_fim : Option Nat) :
    Nat × ℤ × ℚ × ℚ :=
  let rows := vendas.filter (fun v => matchesWindow dt_ini dt_fim v.data)
  (rows.length, (rows.map Venda.quantidade).sum,
   (rows.map Venda.total_bruto).sum, (rows.map Venda.lucro_liquido).sum)

/-- Truncation of a timestamp to its day boundary, the embedding of
strftime with a fixed 00:00:00 time part (load_relatorios_data). -/
def dayStart (t : Nat) : Nat := t / 86400 * 86400

/-- hoje_ini of load_relatorios_data (crud.py line 840). -/
def hoje_ini (now : Nat) : Nat := dayStart now

/-- amanha_ini of load_relatorios_data (crud.py line 841). -/
def amanha_ini (now : Nat) : Nat := dayStart (now + 86400)

/-- d7_ini of load_relatorios_data (crud.py line 842). -/
def d7_ini (now : Nat) : Nat := dayStart (now - 6 * 86400)

/-- d30_ini of load_relatorios_data (crud.py line 843). -/
def d30_ini (now : Nat) : Nat := dayStart (now - 29 * 86400)

/-- verify_user (crud.py lines 107-115), parameterised by the password
digest sha256hex (hashlib is an external collaborator): fetch the first row
with the given username; no row means False, otherwise compare the stored
hash with the digest of the supplied password. -/
def verify_user (sha256hex : String → String) (usuarios : List Usuario)
    (username password : String) : Bool :=
  match usuarios.find? (fun u => u.username == username) with
  | none => false
  | some row => row.password_hash == sha256hex password

/-- Folding a list of (quantity, unit price) purchases of one ingredient
through the ledger. -/
def aplicar_compras (db : DB) (nome : String) (ps : List (ℚ × ℚ)) : DB :=
  ps.foldl (fun d p => registrar_compra_db d nome p.1 p.2) db

/-- Total quantity of a purchase list. -/
def totalQ (ps : List (ℚ × ℚ)) : ℚ := (ps.map Prod.fst).sum

/-- Total value (quantity times unit price summed) of a purchase list. -/
def totalQP (ps : List (ℚ × ℚ)) : ℚ := (ps.map (fun p => p.1 * p.2)).sum

/-- An empty store, as produced by init_db before any insert. -/
def dbEmpty : DB :=
  { insumos := [], compras := [], vendas := [], usuarios := [],
    next_insumo_id := 1, next_compra_id := 1 }

/-- A store holding one ingredient, 5 units at average cost 2. -/
def dbCarne : DB :=
  { insumos := [⟨1, "carne", "", "un", 5, 2⟩], compras := [], vendas := [],
    usuarios := [], next_insumo_id := 2, next_compra_id := 1 }

/-- A store holding one ingredient and two purchase rows. -/
def dbDuasCompras : DB :=
  { insumos := [⟨1, "pao", "", "un", 7, 3⟩],
    compras := [⟨1, "pao", 3, 2⟩, ⟨2, "pao", 4, 5⟩],
    vendas := [], usuarios := [], next_insumo_id := 2, next_compra_id := 3 }

/-- A concrete stand-in digest used to instantiate the credential check. -/
def hashId : String → String := fun s => s

theorem find_insumo_update (insumos : List Insumo) (nome : String) (row : Insumo)
    (h : insumos.find? (fun i => i.nome == nome) = some row) (est cust : ℚ) :
    (insumos.map (fun i =>
        if i.id == row.id then
          { i with estoque_qtd := est, custo_medio := cust }
        else i)).find? (fun i => i.nome == nome) =
      some { row with estoque_qtd := est, custo_medio := cust } := by
  induction insumos with
  | nil => simp at h
  | cons a l ih =>
    by_cases ha : (a.nome == nome) = true
    · rw [@List.find?_cons_of_pos _ (fun i => i.nome == nome) a l ha] at h
      obtain rfl : a = row := by injection h
      rw [List.map_cons, if_pos (by simp)]
      exact @List.find?_cons_of_pos _ (fun i => i.nome == nome)
        { a with estoque_qtd := est, custo_medio := cust } _ (by simpa using ha)
    · rw [@List.find?_cons_of_neg _ (fun i => i.nome == nome) a l ha] at h
      rw [List.map_cons]
      have hnome : ((if (a.id == row.id) = true then
          { a with estoque_qtd := est, custo_medio := cust } else a).nome == nome) =
          (a.nome == nome) := by
        by_cases hid : (a.id == row.id) = true <;> simp [hid]
      rw [@List.find?_cons_of_neg _ (fun i => i.nome == nome)
          (if (a.id == row.id) = true then
            { a with estoque_qtd := est, custo_medio := cust } else a)
          (List.map (fun i => if (i.id == row.id) = true then
            { i with estoque_qtd := est, custo_medio := cust } else i) l)
          (by simpa only [hnome] using ha)]
      exact ih h

theorem registrar_compra_existing (db : DB) (nome : String) (row : Insumo) (q p : ℚ)
    (h : find_insumo db nome = some row) :
    find_insumo (registrar_compra_db db nome q p) nome =
      some { row with
        estoque_qtd := row.estoque_qtd + q,
        custo_medio :=
          if 0 < row.estoque_qtd + q then
            (row.estoque_qtd * row.custo_medio + q * p) / (row.estoque_qtd + q)
          else p } := by
  unfold registrar_compra_db
  simp only [find_insumo] at h
  simp only [h, find_insumo]
  exact find_insumo_update db.insumos nome row h _ _

theorem registrar_compra_new (db : DB) (nome : String) (q p : ℚ)
    (h : find_insumo db nome = none) :
    find_insumo (registrar_compra_db db nome q p) nome =
      some ⟨db.next_insumo_id, nome, "", "un", q, p⟩ := by
  unfold registrar_compra_db
  simp only [find_insumo] at h
  simp only [h, find_insumo, List.find?_append]
  simp [h]

theorem aplicar_compras_cons (db : DB) (nome : String) (x : ℚ × ℚ) (ps : List (ℚ × ℚ)) :
    aplicar_compras db nome (x :: ps) =
      aplicar_compras (registrar_compra_db db nome x.1 x.2) nome ps := rfl

theorem aplicar_compras_existing (nome : String) (ps : List (ℚ × ℚ)) :
    ∀ (db : DB) (row : Insumo),
      find_insumo db nome = some row →
      0 < row.estoque_qtd →
      (∀ x ∈ ps, 0 < x.1) →
      ∃ row2, find_insumo (aplicar_compras db nome ps) nome = some row2 ∧
        row2.estoque_qtd = row.estoque_qtd + totalQ ps ∧
        row2.custo_medio * row2.estoque_qtd =
          row.custo_medio * row.estoque_qtd + totalQP ps := by
  induction ps with
  | nil =>
    intro db row h hpos _
    exact ⟨row, h, by simp [totalQ, aplicar_compras], by simp [totalQP]⟩
  | cons x ps ih =>
    intro db row h hpos hq
    have hx : 0 < x.1 := hq x (List.mem_cons_self x ps)
    have hS : 0 < row.estoque_qtd + x.1 := by linarith
    have hstep := registrar_compra_existing db nome row x.1 x.2 h
    rw [if_pos hS] at hstep
    obtain ⟨row2, hf, he, hc⟩ :=
      ih (registrar_compra_db db nome x.1 x.2) _ hstep (by simpa using hS)
        (fun y hy => hq y (List.mem_cons_of_mem x hy))
    refine ⟨row2, by rwa [aplicar_compras_cons], ?_, ?_⟩
    · rw [he]
      simp only [totalQ, List.map_cons, List.sum_cons]
      ring
    · rw [hc]
      have hne : row.estoque_qtd + x.1 ≠ 0 := ne_of_gt hS
      simp only [totalQP, List.map_cons, List.sum_cons]
      rw [div_mul_cancel₀ _ hne]
      ring

theorem aplicar_compras_from_none (db : DB) (nome : String) (ps : List (ℚ × ℚ))
    (h : find_insumo db nome = none) (hpos : ∀ x ∈ ps, 0 < x.1) (hne : ps ≠ []) :
    ∃ row, find_insumo (aplicar_compras db nome ps) nome = some row ∧
      row.estoque_qtd = totalQ ps ∧
      row.custo_medio = totalQP ps / totalQ ps := by
  obtain ⟨x, ps, rfl⟩ := List.exists_cons_of_ne_nil hne
  have hx : 0 < x.1 := hpos x (List.mem_cons_self x ps)
  have hstep := registrar_compra_new db nome x.1 x.2 h
  obtain ⟨row, hf, he, hc⟩ :=
    aplicar_compras_existing nome ps (registrar_compra_db db nome x.1 x.2)
      _ hstep (by simpa using hx)
      (fun y hy => hpos y (List.mem_cons_of_mem x hy))
  simp only at he hc
  have hQ : totalQ (x :: ps) = x.1 + totalQ ps := by
    simp [totalQ]
  have hQP : totalQP (x :: ps) = x.1 * x.2 + totalQP ps := by
    simp [totalQP]
  have hQpos : 0 < totalQ (x :: ps) := by
    rw [hQ]
    have : 0 ≤ totalQ ps := by
      simp only [totalQ]
      apply List.sum_nonneg
      intro a ha
      obtain ⟨y, hy, rfl⟩ := List.mem_map.mp ha
      exact le_of_lt (hpos y (List.mem_cons_of_mem x hy))
    linarith
  refine ⟨row, by rwa [aplicar_compras_cons], by rw [he, hQ], ?_⟩
  rw [eq_div_iff (ne_of_gt hQpos)]
  rw [← he] at hQ
  rw [hQ, hc, hQP]
  ring

theorem dayStart_le (t : Nat) : dayStart t ≤ t := Nat.div_mul_le_self t 86400

theorem dayStart_add_day (t : Nat) : dayStart (t + 86400) = dayStart t + 86400 := by
  unfold dayStart
  omega

theorem dayStart_sub_days (t k : Nat) (h : k * 86400 ≤ dayStart t) :
    dayStart (t - k * 86400) = dayStart t - k * 86400 := by
  unfold dayStart at h ⊢
  omega

/-- C1: starting from a store with no ingredient of the given name, applying
any nonempty sequence of purchases with positive quantities and prices
yields a final stock equal to the sum of the quantities and a final average
cost equal to the quantity-weighted average of the prices, and any
reordering (permutation) of the sequence yields the same final stock and
average cost. -/
theorem c1_weighted_average (db : DB) (nome : String) (ps ps2 : List (ℚ × ℚ))
    (hnone : find_insumo db nome = none)
    (hpos : ∀ x ∈ ps, 0 < x.1 ∧ 0 < x.2)
    (hne : ps ≠ [])
    (hperm : ps.Perm ps2) :
    (∃ row, find_insumo (aplicar_compras db nome ps) nome = some row ∧
      row.estoque_qtd = totalQ ps ∧
      row.custo_medio = totalQP ps / totalQ ps) ∧
    (∃ row2, find_insumo (aplicar_compras db nome ps2) nome = some row2 ∧
      row2.estoque_qtd = totalQ ps ∧
      row2.custo_medio = totalQP ps / totalQ ps) := by
  have h1 := aplicar_compras_from_none db nome ps hnone (fun x hx => (hpos x hx).1) hne
  have hpos2 : ∀ x ∈ ps2, 0 < x.1 := fun x hx => (hpos x (hperm.mem_iff.mpr hx)).1
  have hne2 : ps2 ≠ [] := by
    intro hnil
    subst hnil
    exact hne hperm.eq_nil
  have h2 := aplicar_compras_from_none db nome ps2 hnone hpos2 hne2
  have hQ : totalQ ps2 = totalQ ps := by
    simp only [totalQ]
    exact ((hperm.map Prod.fst).sum_eq).symm
  have hQP : totalQP ps2 = totalQP ps := by
    simp only [totalQP]
    exact ((hperm.map (fun p => p.1 * p.2)).sum_eq).symm
  obtain ⟨row, hf, he, hc⟩ := h1
  obtain ⟨row2, hf2, he2, hc2⟩ := h2
  exact ⟨⟨row, hf, he, hc⟩, ⟨row2, hf2, by rw [he2, hQ], by rw [hc2, hQ, hQP]⟩⟩

theorem c1_weighted_average_witness :
    find_insumo dbEmpty "farinha" = none ∧
    (∀ x ∈ [((2:ℚ), (3:ℚ)), ((4:ℚ), (5:ℚ))], 0 < x.1 ∧ 0 < x.2) ∧
    ((∃ row, find_insumo
        (aplicar_compras dbEmpty "farinha" [((2:ℚ), (3:ℚ)), ((4:ℚ), (5:ℚ))]) "farinha" =
          some row ∧
        row.estoque_qtd = totalQ [((2:ℚ), (3:ℚ)), ((4:ℚ), (5:ℚ))] ∧
        row.custo_medio = totalQP [((2:ℚ), (3:ℚ)), ((4:ℚ), (5:ℚ))] /
          totalQ [((2:ℚ), (3:ℚ)), ((4:ℚ), (5:ℚ))]) ∧
      (∃ row2, find_insumo
        (aplicar_compras dbEmpty "farinha" [((4:ℚ), (5:ℚ)), ((2:ℚ), (3:ℚ))]) "farinha" =
          some row2 ∧
        row2.estoque_qtd = totalQ [((2:ℚ), (3:ℚ)), ((4:ℚ), (5:ℚ))] ∧
        row2.custo_medio = totalQP [((2:ℚ), (3:ℚ)), ((4:ℚ), (5:ℚ))] /
          totalQ [((2:ℚ), (3:ℚ)), ((4:ℚ), (5:ℚ))])) :=
  ⟨rfl, by decide,
    c1_weighted_average dbEmpty "farinha"
      [((2:ℚ), (3:ℚ)), ((4:ℚ), (5:ℚ))] [((4:ℚ), (5:ℚ)), ((2:ℚ), (3:ℚ))]
      rfl (by decide) (by decide) (List.Perm.swap ((4:ℚ), (5:ℚ)) ((2:ℚ), (3:ℚ)) [])⟩

/-- C2: purchasing an unknown ingredient name creates it with stock equal to
the purchased quantity, average cost equal to the unit price, an empty
category and the default unit of measure. -/
theorem c2_first_purchase_bootstrap (db : DB) (nome : String) (q p : ℚ)
    (hq : 0 < q) (hp : 0 < p) (h : find_insumo db nome = none) :
    find_insumo (registrar_compra_db db nome q p) nome =
      some ⟨db.next_insumo_id, nome, "", "un", q, p⟩ :=
  registrar_compra_new db nome q p h

theorem c2_first_purchase_bootstrap_witness :
    (0:ℚ) < 2 ∧ (0:ℚ) < 3 ∧ find_insumo dbEmpty "queijo" = none ∧
    find_insumo (registrar_compra_db dbEmpty "queijo" 2 3) "queijo" =
      some ⟨1, "queijo", "", "un", 2, 3⟩ :=
  ⟨by norm_num, by norm_num, rfl,
    c2_first_purchase_bootstrap dbEmpty "queijo" 2 3 (by norm_num) (by norm_num) rfl⟩

/-- C3: a purchase of an already existing ingredient sets the stock to the
old stock plus the quantity; when the new stock is positive the new average
cost is the weighted average and the denominator of that division is
nonzero, and when the new stock is zero the new average cost is the raw
unit price. -/
theorem c3_purchase_existing_update (db : DB) (nome : String) (row : Insumo) (q p : ℚ)
    (h : find_insumo db nome = some row) :
    ∃ row2, find_insumo (registrar_compra_db db nome q p) nome = some row2 ∧
      row2.estoque_qtd = row.estoque_qtd + q ∧
      (0 < row.estoque_qtd + q →
        row2.custo_medio =
          (row.estoque_qtd * row.custo_medio + q * p) / (row.estoque_qtd + q) ∧
        row.estoque_qtd + q ≠ 0) ∧
      (row.estoque_qtd + q = 0 → row2.custo_medio = p) := by
  refine ⟨_, registrar_compra_existing db nome row q p h, by simp, ?_, ?_⟩
  · intro hpos
    constructor
    · simp only
      rw [if_pos hpos]
    · exact ne_of_gt hpos
  · intro hzero
    have hneg : ¬ 0 < row.estoque_qtd + q := by
      rw [hzero]
      exact lt_irrefl 0
    simp only
    rw [if_neg hneg]

theorem c3_purchase_existing_update_witness :
    find_insumo dbCarne "carne" = some ⟨1, "carne", "", "un", 5, 2⟩ ∧
    (∃ row2, find_insumo (registrar_compra_db dbCarne "carne" 4 8) "carne" = some row2 ∧
      row2.estoque_qtd = (5:ℚ) + 4 ∧
      ((0:ℚ) < 5 + 4 →
        row2.custo_medio = ((5:ℚ) * 2 + 4 * 8) / ((5:ℚ) + 4) ∧ (5:ℚ) + 4 ≠ 0) ∧
      ((5:ℚ) + 4 = 0 → row2.custo_medio = 8)) :=
  ⟨rfl, c3_purchase_existing_update dbCarne "carne" ⟨1, "carne", "", "un", 5, 2⟩ 4 8 rfl⟩

/-- C4: recording a sale appends one record whose gross total is the unit
price times the quantity, whose cost of goods is zero, and whose net profit
is the gross total minus the platform fee minus the cost of goods; at
quantity 4, unit price 10 and fee fraction 0.12 the gross total is 40, the
fee is 4.80 and the net profit is 35.20. -/
theorem c4_sale_arithmetic (db : DB) (rid : Nat) (q : ℤ) (p taxa : ℚ) (now : Nat)
    (hq : 0 < q) (hp : 0 < p) (ht0 : 0 ≤ taxa) (ht1 : taxa < 1) :
    (∃ v, (registrar_venda db rid q p taxa now).vendas = db.vendas ++ [v] ∧
      v.total_bruto = p * (q : ℚ) ∧
      v.custo_total = 0 ∧
      v.lucro_liquido = v.total_bruto - v.total_bruto * taxa - v.custo_total) ∧
    (∃ v4, (registrar_venda db rid 4 10 (12/100) now).vendas = db.vendas ++ [v4] ∧
      v4.total_bruto = 40 ∧
      v4.total_bruto * (12/100) = 24/5 ∧
      v4.custo_total = 0 ∧
      v4.lucro_liquido = 176/5) := by
  constructor
  · exact ⟨_, rfl, rfl, rfl, rfl⟩
  · refine ⟨_, rfl, ?_, ?_, rfl, ?_⟩
    · norm_num
    · norm_num
    · norm_num

theorem c4_sale_arithmetic_witness :
    (0:ℤ) < 4 ∧ (0:ℚ) < 10 ∧ (0:ℚ) ≤ 12/100 ∧ (12:ℚ)/100 < 1 ∧
    ((∃ v, (registrar_venda dbEmpty 7 4 10 (12/100) 0).vendas = dbEmpty.vendas ++ [v] ∧
        v.total_bruto = 10 * ((4:ℤ) : ℚ) ∧
        v.custo_total = 0 ∧
        v.lucro_liquido = v.total_bruto - v.total_bruto * (12/100) - v.custo_total) ∧
      (∃ v4, (registrar_venda dbEmpty 7 4 10 (12/100) 0).vendas = dbEmpty.vendas ++ [v4] ∧
        v4.total_bruto = 40 ∧
        v4.total_bruto * (12/100) = 24/5 ∧
        v4.custo_total = 0 ∧
        v4.lucro_liquido = 176/5)) :=
  ⟨by norm_num, by norm_num, by norm_num, by norm_num,
    c4_sale_arithmetic dbEmpty 7 4 10 (12/100) 0
      (by norm_num) (by norm_num) (by norm_num) (by norm_num)⟩

/-- C5: the aggregate counts exactly the sale records whose timestamp lies
in the half-open window, either bound omittable; the Today window runs from
the start of today to the start of tomorrow, which is one day later, and the
Last 7 days window starts six days before the start of today; hence a sale
timestamped exactly at the start of today is counted in Today while a sale
timestamped one second earlier is excluded from Today but counted in the
Last 7 days window. -/
theorem c5_window_aggregation (vendas : List Venda) (dt_ini dt_fim : Option Nat)
    (now : Nat) (h : 6 * 86400 ≤ hoje_ini now) :
    ((agg_vendas vendas dt_ini dt_fim).1 =
        vendas.countP (fun v => matchesWindow dt_ini dt_fim v.data)) ∧
    (∀ t, matchesWindow dt_ini dt_fim t = true ↔
        ((∀ a ∈ dt_ini, a ≤ t) ∧ (∀ b ∈ dt_fim, t < b))) ∧
    amanha_ini now = hoje_ini now + 86400 ∧
    d7_ini now = hoje_ini now - 6 * 86400 ∧
    matchesWindow (some (hoje_ini now)) (some (amanha_ini now)) (hoje_ini now) = true ∧
    matchesWindow (some (hoje_ini now)) (some (amanha_ini now)) (hoje_ini now - 1) = false ∧
    matchesWindow (some (d7_ini now)) (some (amanha_ini now)) (hoje_ini now - 1) = true := by
  have e1 : amanha_ini now = hoje_ini now + 86400 := dayStart_add_day now
  have e2 : d7_ini now = hoje_ini now - 6 * 86400 := dayStart_sub_days now 6 h
  refine ⟨?_, ?_, e1, e2, ?_, ?_, ?_⟩
  · simp [agg_vendas, List.countP_eq_length_filter]
  · intro t
    cases dt_ini <;> cases dt_fim <;> simp [matchesWindow]
  · simp [matchesWindow, e1]
  · simp [matchesWindow, e1]
    intro hle
    omega
  · simp [matchesWindow, e1, e2]
    omega

theorem c5_window_aggregation_witness :
    6 * 86400 ≤ hoje_ini (6 * 86400 + 3600) ∧
    (((agg_vendas ([] : List Venda) none none).1 =
        List.countP (fun v => matchesWindow none none v.data) ([] : List Venda)) ∧
      (∀ t, matchesWindow none none t = true ↔
          ((∀ a ∈ (none : Option Nat), a ≤ t) ∧ (∀ b ∈ (none : Option Nat), t < b))) ∧
      amanha_ini (6 * 86400 + 3600) = hoje_ini (6 * 86400 + 3600) + 86400 ∧
      d7_ini (6 * 86400 + 3600) = hoje_ini (6 * 86400 + 3600) - 6 * 86400 ∧
      matchesWindow (some (hoje_ini (6 * 86400 + 3600)))
        (some (amanha_ini (6 * 86400 + 3600))) (hoje_ini (6 * 86400 + 3600)) = true ∧
      matchesWindow (some (hoje_ini (6 * 86400 + 3600)))
        (some (amanha_ini (6 * 86400 + 3600))) (hoje_ini (6 * 86400 + 3600) - 1) = false ∧
      matchesWindow (some (d7_ini (6 * 86400 + 3600)))
        (some (amanha_ini (6 * 86400 + 3600))) (hoje_ini (6 * 86400 + 3600) - 1) = true) :=
  ⟨by decide, c5_window_aggregation [] none none (6 * 86400 + 3600) (by decide)⟩

/-- C6: over a window that matches no sale record, including over the empty
record set, the aggregate is exactly the zero tuple. -/
theorem c6_empty_aggregation (vendas : List Venda) (dt_ini dt_fim : Option Nat)
    (h : ∀ v ∈ vendas, matchesWindow dt_ini dt_fim v.data = false) :
    agg_vendas vendas dt_ini dt_fim = (0, 0, 0, 0) := by
  have hfil : vendas.filter (fun v => matchesWindow dt_ini dt_fim v.data) = [] := by
    rw [List.filter_eq_nil_iff]
    intro a ha
    simp [h a ha]
  simp [agg_vendas, hfil]

theorem c6_empty_aggregation_witness :
    (∀ v ∈ ([] : List Venda), matchesWindow (some 10) (some 20) v.data = false) ∧
    agg_vendas [] (some 10) (some 20) = (0, 0, 0, 0) :=
  ⟨by simp, c6_empty_aggregation [] (some 10) (some 20) (by simp)⟩

/-- C7 counterexample: called with a negative quantity, violating the
precondition, the ledger signals nothing: it silently appends the purchase
row and rewrites the ingredient from stock 5 and cost 2 to stock 4 and cost
7/4, so its visible ingredient state does change. -/
theorem c7_ledger_silent_counterexample :
    find_insumo (registrar_compra_db dbCarne "carne" (-1) 3) "carne" =
      some ⟨1, "carne", "", "un", 4, 7/4⟩ ∧
    (registrar_compra_db dbCarne "carne" (-1) 3).compras =
      [⟨1, "carne", -1, 3⟩] ∧
    find_insumo dbCarne "carne" = some ⟨1, "carne", "", "un", 5, 2⟩ := by
  have h := registrar_compra_existing dbCarne "carne" ⟨1, "carne", "", "un", 5, 2⟩ (-1) 3 rfl
  rw [if_pos (by norm_num)] at h
  refine ⟨?_, ?_, rfl⟩
  · rw [h]
    simp only [Option.some.injEq, Insumo.mk.injEq]
    norm_num
  · simp [registrar_compra_db, dbCarne]

/-- C7 amended: the validation lives in the presentation-layer caller: with
a non-positive quantity or price the caller returns a warning dialog and
never reaches the ledger, while registrar_compra_db itself performs no
validation. -/
theorem c7_caller_validates (db : DB) (nome : String) (q p : ℚ)
    (h : q ≤ 0 ∨ p ≤ 0) :
    registrar_compra_ui db nome q p =
      .aviso "Preencha todos os campos corretamente." := by
  unfold registrar_compra_ui
  rcases h with h | h
  · rw [if_pos (Or.inr (Or.inl h))]
  · rw [if_pos (Or.inr (Or.inr h))]

theorem c7_caller_validates_witness :
    ((-1:ℚ) ≤ 0 ∨ (3:ℚ) ≤ 0) ∧
    registrar_compra_ui dbCarne "carne" (-1) 3 =
      .aviso "Preencha todos os campos corretamente." :=
  ⟨Or.inl (by norm_num),
    c7_caller_validates dbCarne "carne" (-1) 3 (Or.inl (by norm_num))⟩

/-- C8: deleting a purchase row removes exactly the purchase rows carrying
that id and leaves every other table unchanged, in particular every
ingredient row with its stock and average cost. -/
theorem c8_delete_compra_frame (db : DB) (compra_id : Nat) :
    (delete_compra_db db compra_id).insumos = db.insumos ∧
    (delete_compra_db db compra_id).vendas = db.vendas ∧
    (delete_compra_db db compra_id).usuarios = db.usuarios ∧
    (∀ c ∈ db.compras, c.id ≠ compra_id → c ∈ (delete_compra_db db compra_id).compras) ∧
    (∀ c ∈ (delete_compra_db db compra_id).compras, c ∈ db.compras ∧ c.id ≠ compra_id) := by
  refine ⟨rfl, rfl, rfl, ?_, ?_⟩
  · intro c hc hne
    simp [delete_compra_db, List.mem_filter, hc, hne]
  · intro c hc
    simp only [delete_compra_db, List.mem_filter] at hc
    refine ⟨hc.1, ?_⟩
    have := hc.2
    simpa using this

theorem c8_delete_compra_frame_witness :
    (delete_compra_db dbDuasCompras 1).insumos = dbDuasCompras.insumos ∧
    (⟨2, "pao", 4, 5⟩ : Compra) ∈ (delete_compra_db dbDuasCompras 1).compras :=
  ⟨(c8_delete_compra_frame dbDuasCompras 1).1,
    (c8_delete_compra_frame dbDuasCompras 1).2.2.2.1 ⟨2, "pao", 4, 5⟩
      (by decide) (by decide)⟩

/-- C9: when no stored user carries the supplied username the credential
check returns false as an ordinary value, and when one does it returns true
exactly when the stored hash equals the digest of the supplied password. -/
theorem c9_verify_user (sha256hex : String → String) (usuarios : List Usuario)
    (username password : String) :
    (usuarios.find? (fun u => u.username == username) = none →
      verify_user sha256hex usuarios username password = false) ∧
    (∀ row, usuarios.find? (fun u => u.username == username) = some row →
      (verify_user sha256hex usuarios username password = true ↔
        row.password_hash = sha256hex password)) := by
  constructor
  · intro h
    simp [verify_user, h]
  · intro row h
    simp [verify_user, h]

theorem c9_verify_user_witness :
    ([⟨"admin", "admin"⟩] : List Usuario).find? (fun u => u.username == "bob") = none ∧
    verify_user hashId [⟨"admin", "admin"⟩] "bob" "x" = false ∧
    (verify_user hashId [⟨"admin", "admin"⟩] "admin" "admin" = true ↔
      "admin" = hashId "admin") :=
  ⟨rfl,
    (c9_verify_user hashId [⟨"admin", "admin"⟩] "bob" "x").1 rfl,
    (c9_verify_user hashId [⟨"admin", "admin"⟩] "admin" "admin").2 ⟨"admin", "admin"⟩ rfl⟩

/-- C10: purchasing a positive quantity at a positive price into an existing
ingredient with non-negative stock and cost leaves a strictly positive stock
and an average cost lying between the old cost and the purchase price
inclusive, hence stock and average cost stay non-negative. -/
theorem c10_purchase_invariants (db : DB) (nome : String) (row : Insumo) (q p : ℚ)
    (h : find_insumo db nome = some row)
    (hS : 0 ≤ row.estoque_qtd) (hC : 0 ≤ row.custo_medio)
    (hq : 0 < q) (hp : 0 < p) :
    ∃ row2, find_insumo (registrar_compra_db db nome q p) nome = some row2 ∧
      0 < row2.estoque_qtd ∧
      min row.custo_medio p ≤ row2.custo_medio ∧
      row2.custo_medio ≤ max row.custo_medio p ∧
      0 ≤ row2.estoque_qtd ∧ 0 ≤ row2.custo_medio := by
  have hpos : 0 < row.estoque_qtd + q := by linarith
  have hstep := registrar_compra_existing db nome row q p h
  rw [if_pos hpos] at hstep
  refine ⟨_, hstep, ?_, ?_, ?_, ?_, ?_⟩ <;> simp only
  · exact hpos
  · rw [le_div_iff₀ hpos]
    rcases le_total row.custo_medio p with hcp | hpc
    · rw [min_eq_left hcp]
      nlinarith
    · rw [min_eq_right hpc]
      nlinarith
  · rw [div_le_iff₀ hpos]
    rcases le_total row.custo_medio p with hcp | hpc
    · rw [max_eq_right hcp]
      nlinarith
    · rw [max_eq_left hpc]
      nlinarith
  · exact le_of_lt hpos
  · apply div_nonneg _ (le_of_lt hpos)
    nlinarith

theorem c10_purchase_invariants_witness :
    find_insumo dbCarne "carne" = some ⟨1, "carne", "", "un", 5, 2⟩ ∧
    (0:ℚ) ≤ 5 ∧ (0:ℚ) ≤ 2 ∧ (0:ℚ) < 4 ∧ (0:ℚ) < 8 ∧
    (∃ row2, find_insumo (registrar_compra_db dbCarne "carne" 4 8) "carne" = some row2 ∧
      0 < row2.estoque_qtd ∧
      min (2:ℚ) 8 ≤ row2.custo_medio ∧
      row2.custo_medio ≤ max (2:ℚ) 8 ∧
      0 ≤ row2.estoque_qtd ∧ 0 ≤ row2.custo_medio) :=
  ⟨rfl, by norm_num, by norm_num, by norm_num, by norm_num,
    c10_purchase_invariants dbCarne "carne" ⟨1, "carne", "", "un", 5, 2⟩ 4 8 rfl
      (by norm_num) (by norm_num) (by norm_num) (by norm_num)⟩

end Bravus
